import Mathlib

/-!
Verification of the MCP Google Sheets server (Go) against its
natural-language specification.

The development shallowly embeds the protocol engine of `src/main.go`
(request envelopes, the dispatcher `handleRequest`, the tool registry of
`handleToolsList`, the tool executor `handleToolsCall` and the per-tool
argument decoders) and the credential lifecycle of `src/oauth/oauth.go`
(`GetClient` and the browser handshake `getTokenFromWeb`).

JSON values are modelled by an inductive `Json` over the fragment the
program manipulates (identifiers restricted to the null / integer / string
cases the protocol specifies).  Go's `encoding/json` behaviour that the
claims depend on is modelled faithfully: `omitempty` fields are dropped
when nil, absent and `null` object members decode to the zero value,
struct-field matching is case-insensitive on the JSON key with the last
occurrence winning, and unmarshalling a raw message that was never set
fails ("unexpected end of JSON input").  The spreadsheet backend is out of
scope (a thin pass-through per the spec) and is a parameter `Backend`
whose operations return either a rendered result string or a descriptive
failure, exactly the two outcomes `handleToolsCall` distinguishes.
-/

namespace MCP

/-- The fragment of JSON the protocol engine manipulates.  Objects are
association lists in wire order; Go map key ordering is immaterial to the
claims. -/
inductive Json where
  | null : Json
  | bool (b : Bool) : Json
  | num (n : Int) : Json
  | str (s : String) : Json
  | arr (elements : List Json) : Json
  | obj (fields : List (String × Json)) : Json

/-- A request or response identifier: absent/null, a number, or a string
(`ID interface{}` in `main.go`, restricted to the cases the protocol
specifies). -/
inductive MCPId where
  | null : MCPId
  | num (n : Int) : MCPId
  | str (s : String) : MCPId
deriving DecidableEq

/-- `MCPError` of `main.go`: code, message, optional data.  The only data
the program ever attaches is an error string (the raw decode error in the
invalid-params branch). -/
structure MCPError where
  code : Int
  message : String
  data : Option String := none
deriving DecidableEq

/-- `MCPRequest` of `main.go`.  `params` is the raw parameter block:
`none` models an absent `params` member (a nil `json.RawMessage`). -/
structure MCPRequest where
  jsonrpc : String := "2.0"
  id : MCPId := .null
  method : String
  params : Option Json := none

/-- `MCPResponse` of `main.go`: `result` is `Result interface{}` (`none`
models nil) and `error` is `Error *MCPError` (`none` models a nil
pointer). -/
structure MCPResponse where
  jsonrpc : String
  id : MCPId
  result : Option Json := none
  error : Option MCPError := none

/-- ASCII lowercase of one character (the tags the program matches are
all ASCII). -/
def lowerChar (c : Char) : Char :=
  if 65 ≤ c.toNat ∧ c.toNat ≤ 90 then Char.ofNat (c.toNat + 32) else c

/-- Go `encoding/json` struct-field matching: the JSON key matches a
lowercase field tag case-insensitively. -/
def keyIs (k tag : String) : Bool := (k.data.map lowerChar) == tag.data

/-- Unmarshal step shared by all argument structs: a nil raw message
fails, JSON `null` leaves the struct at its zero value (no members), an
object exposes its members, anything else is a type error. -/
def unmarshalObj : Option Json → Except String (List (String × Json))
  | none => .error "unexpected end of JSON input"
  | some .null => .ok []
  | some (.obj fs) => .ok fs
  | some _ => .error "json: cannot unmarshal value into Go struct"

/-- Decoding a JSON member into a `string` field: strings are taken,
`null` leaves the current value, any other shape is a type error. -/
def setStrField (cur : String) : Json → Except String String
  | .str s => .ok s
  | .null => .ok cur
  | _ => .error "json: cannot unmarshal value into Go struct field of type string"

/-- A cell of a `[][]string` value. -/
def decodeCell : Json → Except String String
  | .str s => .ok s
  | _ => .error "json: cannot unmarshal value into Go value of type string"

/-- A row of a `[][]string` value (`null` decodes to the nil slice). -/
def decodeRow : Json → Except String (List String)
  | .null => .ok []
  | .arr xs => xs.mapM decodeCell
  | _ => .error "json: cannot unmarshal value into Go value of type []string"

/-- A `[][]string` value (`null` decodes to the nil slice). -/
def decodeMatrix : Json → Except String (List (List String))
  | .null => .ok []
  | .arr xs => xs.mapM decodeRow
  | _ => .error "json: cannot unmarshal value into Go value of type [][]string"

/-- An element of a `[]map[string]interface{}` value. -/
def decodeReqItem : Json → Except String (List (String × Json))
  | .null => .ok []
  | .obj fs => .ok fs
  | _ => .error "json: cannot unmarshal value into Go value of type map[string]interface {}"

/-- A `[]map[string]interface{}` value (`null` decodes to the nil
slice). -/
def decodeRequests : Json → Except String (List (List (String × Json)))
  | .null => .ok []
  | .arr xs => xs.mapM decodeReqItem
  | _ => .error "json: cannot unmarshal value into Go value of type []map[string]interface {}"

/-- The `{name, arguments}` envelope `handleToolsCall` decodes its params
into.  `arguments` is a `json.RawMessage`: `none` when the member never
appeared. -/
structure ToolCallParams where
  name : String := ""
  arguments : Option Json := none

/-- One member of the params object, applied to the partially decoded
`ToolCallParams` (later duplicates overwrite, unknown members are
ignored, a mistyped `name` is a type error). -/
def toolCallStep (acc : ToolCallParams) (kv : String × Json) : Except String ToolCallParams :=
  if keyIs kv.1 "name" then
    match setStrField acc.name kv.2 with
    | .error e => .error e
    | .ok s => .ok { acc with name := s }
  else if keyIs kv.1 "arguments" then
    .ok { acc with arguments := some kv.2 }
  else
    .ok acc

/-- Decode `req.Params` into `ToolCallParams`, member by member in wire
order as `encoding/json` does. -/
def decodeToolCallParams (params : Option Json) : Except String ToolCallParams := do
  let fs ← unmarshalObj params
  fs.foldlM toolCallStep {}

/-- Arguments of `read_sheet` (`handleReadSheet`). -/
structure ReadSheetArgs where
  spreadsheetId : String := ""
  range : String := ""
deriving DecidableEq

/-- Argument decoder of `handleReadSheet`. -/
def decodeReadSheetArgs (args : Option Json) : Except String ReadSheetArgs := do
  let fs ← unmarshalObj args
  fs.foldlM (fun acc kv =>
      if keyIs kv.1 "spreadsheet_id" then do
        let s ← setStrField acc.spreadsheetId kv.2
        pure { acc with spreadsheetId := s }
      else if keyIs kv.1 "range" then do
        let s ← setStrField acc.range kv.2
        pure { acc with range := s }
      else
        pure acc)
    {}

/-- Arguments of `write_sheet` and `append_sheet`. -/
structure WriteSheetArgs where
  spreadsheetId : String := ""
  range : String := ""
  values : List (List String) := []

/-- Argument decoder of `handleWriteSheet` and `handleAppendSheet`. -/
def decodeWriteSheetArgs (args : Option Json) : Except String WriteSheetArgs := do
  let fs ← unmarshalObj args
  fs.foldlM (fun acc kv =>
      if keyIs kv.1 "spreadsheet_id" then do
        let s ← setStrField acc.spreadsheetId kv.2
        pure { acc with spreadsheetId := s }
      else if keyIs kv.1 "range" then do
        let s ← setStrField acc.range kv.2
        pure { acc with range := s }
      else if keyIs kv.1 "values" then do
        let v ← decodeMatrix kv.2
        pure { acc with values := v }
      else
        pure acc)
    {}

/-- Arguments of `create_spreadsheet`. -/
structure CreateSpreadsheetArgs where
  title : String := ""
  sheets : List String := []

/-- Argument decoder of `handleCreateSpreadsheet`. -/
def decodeCreateSpreadsheetArgs (args : Option Json) : Except String CreateSpreadsheetArgs := do
  let fs ← unmarshalObj args
  fs.foldlM (fun acc kv =>
      if keyIs kv.1 "title" then do
        let s ← setStrField acc.title kv.2
        pure { acc with title := s }
      else if keyIs kv.1 "sheets" then do
        let v ← decodeRow kv.2
        pure { acc with sheets := v }
      else
        pure acc)
    {}

/-- Arguments of `get_spreadsheet_info`. -/
structure GetSpreadsheetInfoArgs where
  spreadsheetId : String := ""

/-- Argument decoder of `handleGetSpreadsheetInfo`. -/
def decodeGetSpreadsheetInfoArgs (args : Option Json) : Except String GetSpreadsheetInfoArgs := do
  let fs ← unmarshalObj args
  fs.foldlM (fun acc kv =>
      if keyIs kv.1 "spreadsheet_id" then do
        let s ← setStrField acc.spreadsheetId kv.2
        pure { acc with spreadsheetId := s }
      else
        pure acc)
    {}

/-- Arguments of `add_sheet`. -/
structure AddSheetArgs where
  spreadsheetId : String := ""
  sheetName : String := ""

/-- Argument decoder of `handleAddSheet`. -/
def decodeAddSheetArgs (args : Option Json) : Except String AddSheetArgs := do
  let fs ← unmarshalObj args
  fs.foldlM (fun acc kv =>
      if keyIs kv.1 "spreadsheet_id" then do
        let s ← setStrField acc.spreadsheetId kv.2
        pure { acc with spreadsheetId := s }
      else if keyIs kv.1 "sheet_name" then do
        let s ← setStrField acc.sheetName kv.2
        pure { acc with sheetName := s }
      else
        pure acc)
    {}

/-- Arguments of `clear_sheet`. -/
structure ClearSheetArgs where
  spreadsheetId : String := ""
  range : String := ""

/-- Argument decoder of `handleClearSheet`. -/
def decodeClearSheetArgs (args : Option Json) : Except String ClearSheetArgs := do
  let fs ← unmarshalObj args
  fs.foldlM (fun acc kv =>
      if keyIs kv.1 "spreadsheet_id" then do
        let s ← setStrField acc.spreadsheetId kv.2
        pure { acc with spreadsheetId := s }
      else if keyIs kv.1 "range" then do
        let s ← setStrField acc.range kv.2
        pure { acc with range := s }
      else
        pure acc)
    {}

/-- Arguments of `batch_update`. -/
structure BatchUpdateArgs where
  spreadsheetId : String := ""
  requests : List (List (String × Json)) := []

/-- Argument decoder of `handleBatchUpdate`. -/
def decodeBatchUpdateArgs (args : Option Json) : Except String BatchUpdateArgs := do
  let fs ← unmarshalObj args
  fs.foldlM (fun acc kv =>
      if keyIs kv.1 "spreadsheet_id" then do
        let s ← setStrField acc.spreadsheetId kv.2
        pure { acc with spreadsheetId := s }
      else if keyIs kv.1 "requests" then do
        let v ← decodeRequests kv.2
        pure { acc with requests := v }
      else
        pure acc)
    {}

/-- `serverName` of `main.go`. -/
def serverName : String := "mcp-google-sheets"

/-- `serverVersion` of `main.go`. -/
def serverVersion : String := "1.0.0"

/-- A property schema as `handleToolsList` builds it: a `type` tag, an
optional `description`, and optional `items` for array types. -/
inductive PropSchema where
  | mk (type : String) (description : Option String) (items : Option PropSchema) : PropSchema

/-- The `type` tag of a property schema. -/
def PropSchema.typeTag : PropSchema → String
  | .mk t _ _ => t

/-- A property of primitive type with a description. -/
def prop (type description : String) : PropSchema := .mk type (some description) none

/-- The `inputSchema` map of a tool descriptor. -/
structure InputSchema where
  type : String
  properties : List (String × PropSchema)
  required : List String

/-- One tool descriptor of the `tools` slice in `handleToolsList`. -/
structure Tool where
  name : String
  description : String
  inputSchema : InputSchema

/-- The fixed tool catalog of `handleToolsList` (`main.go`), in source
order with its literal strings. -/
def toolsList : List Tool := [
  { name := "read_sheet",
    description := "Read data from a Google Sheet. Specify the spreadsheet ID and optional range (e.g., 'Sheet1!A1:D10'). If no range is provided, reads the entire first sheet.",
    inputSchema := {
      type := "object",
      properties := [
        ("spreadsheet_id", prop "string" "The ID of the Google Spreadsheet (from the URL)"),
        ("range", prop "string" "The A1 notation range to read (e.g., 'Sheet1!A1:D10'). Optional - defaults to entire first sheet.")],
      required := ["spreadsheet_id"] } },
  { name := "write_sheet",
    description := "Write data to a Google Sheet. Specify the spreadsheet ID, range, and data as a 2D array. Data overwrites existing content in the range.",
    inputSchema := {
      type := "object",
      properties := [
        ("spreadsheet_id", prop "string" "The ID of the Google Spreadsheet (from the URL)"),
        ("range", prop "string" "The A1 notation range to write to (e.g., 'Sheet1!A1:D10')"),
        ("values", .mk "array" (some "2D array of values to write (array of rows, each row is an array of cell values)")
          (some (.mk "array" none (some (.mk "string" none none)))))],
      required := ["spreadsheet_id", "range", "values"] } },
  { name := "append_sheet",
    description := "Append data to a Google Sheet. Adds new rows after the last row with data in the specified range.",
    inputSchema := {
      type := "object",
      properties := [
        ("spreadsheet_id", prop "string" "The ID of the Google Spreadsheet (from the URL)"),
        ("range", prop "string" "The A1 notation range (e.g., 'Sheet1!A:D' or 'Sheet1')"),
        ("values", .mk "array" (some "2D array of values to append (array of rows)")
          (some (.mk "array" none (some (.mk "string" none none)))))],
      required := ["spreadsheet_id", "range", "values"] } },
  { name := "create_spreadsheet",
    description := "Create a new Google Spreadsheet with the specified title and optional sheet names.",
    inputSchema := {
      type := "object",
      properties := [
        ("title", prop "string" "The title of the new spreadsheet"),
        ("sheets", .mk "array" (some "Optional array of sheet names to create. If not provided, creates one default sheet.")
          (some (.mk "string" none none)))],
      required := ["title"] } },
  { name := "get_spreadsheet_info",
    description := "Get metadata about a spreadsheet including title, sheets, and properties.",
    inputSchema := {
      type := "object",
      properties := [
        ("spreadsheet_id", prop "string" "The ID of the Google Spreadsheet (from the URL)")],
      required := ["spreadsheet_id"] } },
  { name := "add_sheet",
    description := "Add a new sheet (tab) to an existing spreadsheet.",
    inputSchema := {
      type := "object",
      properties := [
        ("spreadsheet_id", prop "string" "The ID of the Google Spreadsheet"),
        ("sheet_name", prop "string" "The name for the new sheet")],
      required := ["spreadsheet_id", "sheet_name"] } },
  { name := "clear_sheet",
    description := "Clear all data in a specified range of a Google Sheet.",
    inputSchema := {
      type := "object",
      properties := [
        ("spreadsheet_id", prop "string" "The ID of the Google Spreadsheet"),
        ("range", prop "string" "The A1 notation range to clear (e.g., 'Sheet1!A1:D10' or 'Sheet1')")],
      required := ["spreadsheet_id", "range"] } },
  { name := "batch_update",
    description := "Perform multiple update operations on a spreadsheet in a single request. Supports formatting, adding sheets, and more complex operations.",
    inputSchema := {
      type := "object",
      properties := [
        ("spreadsheet_id", prop "string" "The ID of the Google Spreadsheet"),
        ("requests", .mk "array" (some "Array of update request objects (see Google Sheets API documentation for request format)") none)],
      required := ["spreadsheet_id", "requests"] } }]

/-- JSON rendering of a property schema (member order immaterial: Go
serializes map keys in its own order). -/
def PropSchema.toJson : PropSchema → Json
  | .mk t d i =>
    .obj ([("type", .str t)]
      ++ (match d with | none => [] | some s => [("description", .str s)])
      ++ (match i with | none => [] | some p => [("items", p.toJson)]))

/-- JSON rendering of a tool descriptor as `handleToolsList` builds it. -/
def Tool.toJson (t : Tool) : Json :=
  .obj [("name", .str t.name),
        ("description", .str t.description),
        ("inputSchema", .obj [
          ("type", .str t.inputSchema.type),
          ("properties", .obj (t.inputSchema.properties.map fun kv => (kv.1, kv.2.toJson))),
          ("required", .arr (t.inputSchema.required.map .str))])]

/-- The out-of-scope spreadsheet backend (`sheets.Client`): one operation
per tool, each returning either a result (kept abstract as its rendered
`%v` text) or a descriptive failure, the two outcomes `handleToolsCall`
distinguishes. -/
structure Backend where
  readSheet : String → String → Except String String
  writeSheet : String → String → List (List String) → Except String String
  appendSheet : String → String → List (List String) → Except String String
  createSpreadsheet : String → List String → Except String String
  getSpreadsheetInfo : String → Except String String
  addSheet : String → String → Except String String
  clearSheet : String → String → Except String String
  batchUpdate : String → List (List (String × Json)) → Except String String

/-- `handleReadSheet` of `main.go`: decode the arguments, then call the
backend. -/
def handleReadSheet (b : Backend) (args : Option Json) : Except String String := do
  let p ← decodeReadSheetArgs args
  b.readSheet p.spreadsheetId p.range

/-- `handleWriteSheet` of `main.go`. -/
def handleWriteSheet (b : Backend) (args : Option Json) : Except String String := do
  let p ← decodeWriteSheetArgs args
  b.writeSheet p.spreadsheetId p.range p.values

/-- `handleAppendSheet` of `main.go`. -/
def handleAppendSheet (b : Backend) (args : Option Json) : Except String String := do
  let p ← decodeWriteSheetArgs args
  b.appendSheet p.spreadsheetId p.range p.values

/-- `handleCreateSpreadsheet` of `main.go`. -/
def handleCreateSpreadsheet (b : Backend) (args : Option Json) : Except String String := do
  let p ← decodeCreateSpreadsheetArgs args
  b.createSpreadsheet p.title p.sheets

/-- `handleGetSpreadsheetInfo` of `main.go`. -/
def handleGetSpreadsheetInfo (b : Backend) (args : Option Json) : Except String String := do
  let p ← decodeGetSpreadsheetInfoArgs args
  b.getSpreadsheetInfo p.spreadsheetId

/-- `handleAddSheet` of `main.go`. -/
def handleAddSheet (b : Backend) (args : Option Json) : Except String String := do
  let p ← decodeAddSheetArgs args
  b.addSheet p.spreadsheetId p.sheetName

/-- `handleClearSheet` of `main.go`. -/
def handleClearSheet (b : Backend) (args : Option Json) : Except String String := do
  let p ← decodeClearSheetArgs args
  b.clearSheet p.spreadsheetId p.range

/-- `handleBatchUpdate` of `main.go`. -/
def handleBatchUpdate (b : Backend) (args : Option Json) : Except String String := do
  let p ← decodeBatchUpdateArgs args
  b.batchUpdate p.spreadsheetId p.requests

/-- The `switch params.Name` of `handleToolsCall`: `none` is the default
branch (unknown tool), `some` the chosen handler's outcome. -/
def runTool (b : Backend) (name : String) (args : Option Json) : Option (Except String String) :=
  if name = "read_sheet" then some (handleReadSheet b args)
  else if name = "write_sheet" then some (handleWriteSheet b args)
  else if name = "append_sheet" then some (handleAppendSheet b args)
  else if name = "create_spreadsheet" then some (handleCreateSpreadsheet b args)
  else if name = "get_spreadsheet_info" then some (handleGetSpreadsheetInfo b args)
  else if name = "add_sheet" then some (handleAddSheet b args)
  else if name = "clear_sheet" then some (handleClearSheet b args)
  else if name = "batch_update" then some (handleBatchUpdate b args)
  else none

/-- The eight registered tool names, in dispatch order. -/
def registeredToolNames : List String :=
  ["read_sheet", "write_sheet", "append_sheet", "create_spreadsheet",
   "get_spreadsheet_info", "add_sheet", "clear_sheet", "batch_update"]

/-- `handleToolsCall` of `main.go`: decode the `{name, arguments}`
envelope (failure: invalid params, code -32602, the raw error as data),
dispatch on the tool name (default: tool not found, code -32601), wrap a
handler failure as code -32000 with the failure's own message, and wrap a
handler result as a single text content block. -/
def handleToolsCall (b : Backend) (req : MCPRequest) : MCPResponse :=
  match decodeToolCallParams req.params with
  | .error e =>
    { jsonrpc := "2.0", id := req.id,
      error := some { code := -32602, message := "Invalid params", data := some e } }
  | .ok params =>
    match runTool b params.name params.arguments with
    | none =>
      { jsonrpc := "2.0", id := req.id,
        error := some { code := -32601, message := "Tool not found: " ++ params.name } }
    | some (.error e) =>
      { jsonrpc := "2.0", id := req.id,
        error := some { code := -32000, message := e } }
    | some (.ok r) =>
      { jsonrpc := "2.0", id := req.id,
        result := some (.obj [("content", .arr [.obj [("type", .str "text"), ("text", .str r)]])]) }

/-- The fixed result of the `initialize` method. -/
def initializeResult : Json :=
  .obj [("protocolVersion", .str "2024-11-05"),
        ("serverInfo", .obj [("name", .str serverName), ("version", .str serverVersion)]),
        ("capabilities", .obj [("tools", .obj [])])]

/-- `handleInitialize` of `main.go`. -/
def handleInitialize (req : MCPRequest) : MCPResponse :=
  { jsonrpc := "2.0", id := req.id, result := some initializeResult }

/-- `handleToolsList` of `main.go`: the catalog wrapped as
`{"tools": [...]}`. -/
def handleToolsList (req : MCPRequest) : MCPResponse :=
  { jsonrpc := "2.0", id := req.id,
    result := some (.obj [("tools", .arr (toolsList.map Tool.toJson))]) }

/-- `handleRequest` of `main.go`: the case-sensitive method switch. -/
def handleRequest (b : Backend) (req : MCPRequest) : MCPResponse :=
  if req.method = "initialize" then handleInitialize req
  else if req.method = "tools/list" then handleToolsList req
  else if req.method = "tools/call" then handleToolsCall b req
  else if req.method = "ping" then
    { jsonrpc := "2.0", id := req.id, result := some (.obj []) }
  else
    { jsonrpc := "2.0", id := req.id,
      error := some { code := -32601, message := "Method not found: " ++ req.method } }

/-- A concrete backend whose operations all succeed, used to instantiate
the dispatcher theorems at specific inputs. -/
def okBackend : Backend where
  readSheet := fun _ _ => .ok "[[x]]"
  writeSheet := fun _ _ _ => .ok "updated"
  appendSheet := fun _ _ _ => .ok "appended"
  createSpreadsheet := fun _ _ => .ok "created"
  getSpreadsheetInfo := fun _ => .ok "info"
  addSheet := fun _ _ => .ok "added"
  clearSheet := fun _ _ => .ok "cleared"
  batchUpdate := fun _ _ => .ok "done"

/-- Emptiness of a list is decidable without equality on its elements
(used to evaluate the catalog invariants on schema property lists). -/
instance decEqNilList {α : Type _} (l : List α) : Decidable (l = []) :=
  match l with
  | [] => isTrue rfl
  | _ :: _ => isFalse (by simp)

/-- Go marshalling of `MCPError` (`json:"code"`, `json:"message"`,
`json:"data,omitempty"`): the data member is dropped when nil. -/
def MCPError.toJson (e : MCPError) : Json :=
  .obj ([("code", .num e.code), ("message", .str e.message)]
    ++ (match e.data with | none => [] | some d => [("data", .str d)]))

/-- Go marshalling of `MCPResponse` in struct-field order; `omitempty`
drops a nil id, a nil result and a nil error pointer. -/
def encodeResponse (r : MCPResponse) : Json :=
  .obj ([("jsonrpc", .str r.jsonrpc)]
    ++ (match r.id with
        | .null => []
        | .num n => [("id", Json.num n)]
        | .str s => [("id", Json.str s)])
    ++ (match r.result with | none => [] | some v => [("result", v)])
    ++ (match r.error with | none => [] | some e => [("error", e.toJson)]))

/-- Go struct-field assignment from an object: among the members whose
key matches the (lowercase) tag case-insensitively, the last one wins. -/
def goMember (fs : List (String × Json)) (tag : String) : Option Json :=
  fs.foldl (fun acc kv => if keyIs kv.1 tag then some kv.2 else acc) none

/-- Go unmarshalling of an `id` member into `ID interface{}`, restricted
to the modelled identifier fragment: absent and `null` give the nil
interface, numbers and strings keep their type and value. -/
def decodeId : Option Json → MCPId
  | some (.num n) => .num n
  | some (.str s) => .str s
  | _ => .null

/-- Go unmarshalling of an optional `interface{}` member: absence and
JSON `null` both give the nil interface. -/
def decodeInterface : Option Json → Option Json
  | some .null => none
  | some v => some v
  | none => none

/-- Go unmarshalling of an `Error *MCPError` member: absent or `null`
gives the nil pointer; an object decodes the error struct (a data member
outside the modelled string fragment decodes to nil data). -/
def decodeError : Option Json → Except String (Option MCPError)
  | none => .ok none
  | some .null => .ok none
  | some (.obj efs) => do
    let code ← match goMember efs "code" with
      | none => pure 0
      | some .null => pure 0
      | some (.num n) => pure n
      | some _ => .error "json: cannot unmarshal value into Go struct field MCPError.code of type int"
    let msg ← match goMember efs "message" with
      | none => pure ""
      | some v => setStrField "" v
    let data := match goMember efs "data" with
      | some (.str s) => some s
      | _ => none
    pure (some { code := code, message := msg, data := data })
  | some _ => .error "json: cannot unmarshal value into Go value of type *MCPError"

/-- Go unmarshalling of a response envelope (`json.Unmarshal` into
`MCPResponse`). -/
def decodeResponse : Json → Except String MCPResponse
  | .obj fs => do
    let jr ← match goMember fs "jsonrpc" with
      | none => pure ""
      | some v => setStrField "" v
    let er ← decodeError (goMember fs "error")
    pure { jsonrpc := jr, id := decodeId (goMember fs "id"),
           result := decodeInterface (goMember fs "result"), error := er }
  | _ => .error "json: cannot unmarshal value into Go value of type MCPResponse"

end MCP

namespace OAuth

/-- The stored credential record (`oauth2.Token` as persisted by
`saveToken`): access token, refresh token, token type, absolute expiry
(modelled as a Unix timestamp). -/
structure Token where
  accessToken : String := ""
  refreshToken : String := ""
  tokenType : String := ""
  expiry : Int := 0
deriving DecidableEq

/-- `Config` of `oauth.go`. -/
structure Config where
  clientID : String
  clientSecret : String
  redirectURI : String
  tokenFile : String
deriving DecidableEq

/-- `sheets.SpreadsheetsScope`, the single scope `GetOAuthConfig`
requests. -/
def spreadsheetsScope : String := "https://www.googleapis.com/auth/spreadsheets"

/-- Modelled from the x/oauth2 library (an external collaborator, not
repository code): `AuthCodeURL` renders the Google endpoint URL with the
client id, redirect URI, scope and the given state, plus the options the
call site passes (`AccessTypeOffline`, `ApprovalForce`). -/
def authCodeURL (c : Config) (state : String) : String :=
  "https://accounts.google.com/o/oauth2/auth?access_type=offline&approval_prompt=force&client_id="
    ++ c.clientID ++ "&redirect_uri=" ++ c.redirectURI
    ++ "&response_type=code&scope=" ++ spreadsheetsScope ++ "&state=" ++ state

/-- The state argument `getTokenFromWeb` passes to `AuthCodeURL`
(oauth.go): the string literal "state-token".  The function samples no
randomness. -/
def oauthStateParam : String := "state-token"

/-- The state token a handshake session embeds in its authorization URL.
It is the constant `oauthStateParam` whatever the session's
configuration: the code computes nothing session-dependent for it. -/
def sessionStateToken (c : Config) : String := oauthStateParam

/-- The externally visible actions of the credential flow, in program
order: starting the local callback listener, printing the authorization
URL, shutting the listener down, persisting a token. -/
inductive FlowAction where
  | bindListener : FlowAction
  | emitAuthURL (url : String) : FlowAction
  | shutdown : FlowAction
  | saveToken (t : Token) : FlowAction
deriving DecidableEq

/-- The first signal that resolves the `select` in `getTokenFromWeb`: a
callback carrying a code, a callback without a code, a listener startup
failure (both delivered on errChan), or context cancellation. -/
inductive FlowEvent where
  | callbackCode (code : String) : FlowEvent
  | callbackNoCode : FlowEvent
  | listenFailed (msg : String) : FlowEvent
  | ctxCancelled : FlowEvent

/-- `getTokenFromWeb` of `oauth.go`.  `exchange` models
`config.Exchange` (the remote code-for-token exchange); `ev` is the
first signal the `select` receives.  Returns the function's result and
the ordered trace of its externally visible actions.  The listener is
started and the URL printed before the `select` on every run; every
branch calls `server.Shutdown` before returning. -/
def getTokenFromWeb (c : Config) (exchange : String → Except String Token)
    (ev : FlowEvent) : Except String Token × List FlowAction :=
  let pre : List FlowAction := [.bindListener, .emitAuthURL (authCodeURL c oauthStateParam)]
  match ev with
  | .callbackCode code =>
    match exchange code with
    | .error m => (.error ("unable to exchange code for token: " ++ m), pre ++ [.shutdown])
    | .ok tok => (.ok tok, pre ++ [.shutdown])
  | .callbackNoCode => (.error "no code in OAuth callback", pre ++ [.shutdown])
  | .listenFailed m =>
    (.error ("failed to start OAuth callback server: " ++ m), pre ++ [.shutdown])
  | .ctxCancelled => (.error "context cancelled", pre ++ [.shutdown])

/-- `GetClient` of `oauth.go`.  `loadResult` models `c.loadToken()` (the
file read).  On a successful load the function wraps the stored token
(`config.Client`, auto-refreshing) and returns at once; the spawned
`saveTokenIfRefreshed` goroutine has an empty body, so no action is
recorded.  On a load failure it runs the browser handshake and persists
the fresh token (best effort).  A successful result `ok t` stands for
the HTTP client wrapping token `t`. -/
def GetClient (c : Config) (loadResult : Except String Token)
    (exchange : String → Except String Token) (ev : FlowEvent) :
    Except String Token × List FlowAction :=
  match loadResult with
  | .ok token => (.ok token, [])
  | .error _ =>
    match getTokenFromWeb c exchange ev with
    | (.error m, tr) => (.error ("unable to get token from web: " ++ m), tr)
    | (.ok token, tr) => (.ok token, tr ++ [.saveToken token])

end OAuth

open MCP

/-- Routing: a request whose method is `tools/call` reaches the tool
executor. -/
theorem handleRequest_toolsCall (b : Backend) (req : MCPRequest)
    (hm : req.method = "tools/call") : handleRequest b req = handleToolsCall b req := by
  unfold handleRequest
  rw [hm, if_neg (by decide : ¬("tools/call" : String) = "initialize"),
      if_neg (by decide : ¬("tools/call" : String) = "tools/list"),
      if_pos (rfl : ("tools/call" : String) = "tools/call")]

/-- Executor equation: a params decode failure yields the invalid-params
response. -/
theorem handleToolsCall_decode_error (b : Backend) (req : MCPRequest) (e : String)
    (hd : decodeToolCallParams req.params = .error e) :
    handleToolsCall b req =
      { jsonrpc := "2.0", id := req.id,
        error := some { code := -32602, message := "Invalid params", data := some e } } := by
  unfold handleToolsCall
  rw [hd]

/-- Executor equation: once the params decode, the response is determined
by the dispatch on the tool name. -/
theorem handleToolsCall_decode_ok (b : Backend) (req : MCPRequest) (p : ToolCallParams)
    (hd : decodeToolCallParams req.params = .ok p) :
    handleToolsCall b req =
      match runTool b p.name p.arguments with
      | none =>
        { jsonrpc := "2.0", id := req.id,
          error := some { code := -32601, message := "Tool not found: " ++ p.name } }
      | some (.error e) =>
        { jsonrpc := "2.0", id := req.id,
          error := some { code := -32000, message := e } }
      | some (.ok r) =>
        { jsonrpc := "2.0", id := req.id,
          result := some (.obj [("content",
            .arr [.obj [("type", Json.str "text"), ("text", Json.str r)]])]) } := by
  unfold handleToolsCall
  rw [hd]

/-- A name outside the eight registered tool names falls to the default
branch of the dispatch switch. -/
theorem runTool_eq_none (b : Backend) (args : Option Json) {name : String}
    (hn : name ∉ registeredToolNames) : runTool b name args = none := by
  unfold runTool
  simp only [registeredToolNames, List.mem_cons, List.mem_singleton, not_or] at hn
  obtain ⟨h1, h2, h3, h4, h5, h6, h7, h8, -⟩ := hn
  rw [if_neg h1, if_neg h2, if_neg h3, if_neg h4, if_neg h5, if_neg h6, if_neg h7, if_neg h8]

/-- C1: for every decoded request envelope and every backend, the
dispatcher returns exactly one response in which exactly one of the
result payload and the error object is present: every success path has a
non-nil result and a nil error, every failure path a non-nil error and a
nil result, for every method name including unrecognized ones. -/
theorem handleRequest_result_xor_error (b : Backend) (req : MCPRequest) :
    ((handleRequest b req).result ≠ none ∧ (handleRequest b req).error = none) ∨
    ((handleRequest b req).error ≠ none ∧ (handleRequest b req).result = none) := by
  unfold handleRequest
  split_ifs
  · exact Or.inl ⟨Option.some_ne_none _, rfl⟩
  · exact Or.inl ⟨Option.some_ne_none _, rfl⟩
  · cases hd : decodeToolCallParams req.params with
    | error e =>
      rw [handleToolsCall_decode_error b req e hd]
      exact Or.inr ⟨Option.some_ne_none _, rfl⟩
    | ok p =>
      rw [handleToolsCall_decode_ok b req p hd]
      cases hr : runTool b p.name p.arguments with
      | none => exact Or.inr ⟨Option.some_ne_none _, rfl⟩
      | some r =>
        cases r with
        | error e => exact Or.inr ⟨Option.some_ne_none _, rfl⟩
        | ok v => exact Or.inl ⟨Option.some_ne_none _, rfl⟩
  · exact Or.inl ⟨Option.some_ne_none _, rfl⟩
  · exact Or.inr ⟨Option.some_ne_none _, rfl⟩

/-- C2: every `tools/list` request is answered with the catalog of
exactly 8 descriptors in the fixed order read_sheet, write_sheet,
append_sheet, create_spreadsheet, get_spreadsheet_info, add_sheet,
clear_sheet, batch_update; each descriptor has a non-empty description,
an input schema of type "object" with a non-empty properties map, and a
required list whose entries all name keys of that properties map. -/
theorem toolsList_catalog (req : MCPRequest) :
    handleToolsList req =
      { jsonrpc := "2.0", id := req.id,
        result := some (.obj [("tools", .arr (toolsList.map Tool.toJson))]),
        error := none } ∧
    toolsList.map Tool.name =
      ["read_sheet", "write_sheet", "append_sheet", "create_spreadsheet",
       "get_spreadsheet_info", "add_sheet", "clear_sheet", "batch_update"] ∧
    toolsList.length = 8 ∧
    ∀ t ∈ toolsList,
      t.description ≠ "" ∧
      t.inputSchema.type = "object" ∧
      t.inputSchema.properties ≠ [] ∧
      ∀ r ∈ t.inputSchema.required, r ∈ t.inputSchema.properties.map Prod.fst :=
  ⟨rfl, by decide, by decide, by decide⟩

/-- C3: every request whose method is none of initialize, tools/list,
tools/call, ping (exact match) is answered with error code -32601 and
message "Method not found: " followed verbatim by the method string. -/
theorem handleRequest_method_not_found (b : Backend) (req : MCPRequest)
    (h : req.method ∉ ["initialize", "tools/list", "tools/call", "ping"]) :
    handleRequest b req =
      { jsonrpc := "2.0", id := req.id,
        error := some { code := -32601, message := "Method not found: " ++ req.method } } := by
  simp only [List.mem_cons, List.mem_singleton, not_or] at h
  obtain ⟨h1, h2, h3, h4, -⟩ := h
  unfold handleRequest
  rw [if_neg h1, if_neg h2, if_neg h3, if_neg h4]

/-- Witness for C3 at the concrete unrecognized method
"resources/list". -/
theorem handleRequest_method_not_found_witness :
    "resources/list" ∉ ["initialize", "tools/list", "tools/call", "ping"] ∧
    handleRequest okBackend { method := "resources/list", id := MCPId.num 7 } =
      { jsonrpc := "2.0", id := MCPId.num 7,
        error := some { code := -32601, message := "Method not found: resources/list" } } :=
  ⟨by decide,
   handleRequest_method_not_found okBackend
     { method := "resources/list", id := MCPId.num 7 } (by decide)⟩

/-- C4: every `tools/call` request whose params decode to a
`{name, arguments}` envelope naming a tool outside the registry is
answered with error code -32601 and message "Tool not found: " followed
by the given name. -/
theorem toolsCall_tool_not_found (b : Backend) (req : MCPRequest) (p : ToolCallParams)
    (hm : req.method = "tools/call")
    (hd : decodeToolCallParams req.params = .ok p)
    (hn : p.name ∉ registeredToolNames) :
    handleRequest b req =
      { jsonrpc := "2.0", id := req.id,
        error := some { code := -32601, message := "Tool not found: " ++ p.name } } := by
  rw [handleRequest_toolsCall b req hm, handleToolsCall_decode_ok b req p hd,
      runTool_eq_none b p.arguments hn]

/-- Witness for C4 at the concrete unregistered tool name
"fetch_sheet". -/
theorem toolsCall_tool_not_found_witness :
    ({ method := "tools/call", id := MCPId.str "w4",
       params := some (Json.obj [("name", Json.str "fetch_sheet")]) } : MCPRequest).method =
      "tools/call" ∧
    decodeToolCallParams (some (Json.obj [("name", Json.str "fetch_sheet")])) =
      .ok { name := "fetch_sheet", arguments := none } ∧
    "fetch_sheet" ∉ registeredToolNames ∧
    handleRequest okBackend
      { method := "tools/call", id := MCPId.str "w4",
        params := some (Json.obj [("name", Json.str "fetch_sheet")]) } =
      { jsonrpc := "2.0", id := MCPId.str "w4",
        error := some { code := -32601, message := "Tool not found: fetch_sheet" } } :=
  ⟨rfl, rfl, by decide,
   toolsCall_tool_not_found okBackend
     { method := "tools/call", id := MCPId.str "w4",
       params := some (Json.obj [("name", Json.str "fetch_sheet")]) }
     { name := "fetch_sheet", arguments := none } rfl rfl (by decide)⟩

/-- C5: every `tools/call` request that names a registered tool and whose
handler fails — whether the tool's arguments fail to decode against its
expected shape or the backend call fails — is answered with error code
-32000, a message equal to the failure's own description, and no data
field; such failures are never reported with the invalid-params
code -32602. -/
theorem toolsCall_execution_failure (b : Backend) (req : MCPRequest) (p : ToolCallParams)
    (e : String)
    (hm : req.method = "tools/call")
    (hd : decodeToolCallParams req.params = .ok p)
    (hr : runTool b p.name p.arguments = some (.error e)) :
    handleRequest b req =
      { jsonrpc := "2.0", id := req.id, result := none,
        error := some { code := -32000, message := e, data := none } } := by
  rw [handleRequest_toolsCall b req hm, handleToolsCall_decode_ok b req p hd, hr]

/-- Witness for C5: a `read_sheet` call whose arguments raw message is
absent fails to decode, and the response carries code -32000 (not
-32602) with the decode failure's own description and no data, even
though the backend itself would have succeeded. -/
theorem toolsCall_execution_failure_witness :
    decodeToolCallParams (some (Json.obj [("name", Json.str "read_sheet")])) =
      .ok { name := "read_sheet", arguments := none } ∧
    runTool okBackend "read_sheet" none =
      some (.error "unexpected end of JSON input") ∧
    handleRequest okBackend
      { method := "tools/call", id := MCPId.num 3,
        params := some (Json.obj [("name", Json.str "read_sheet")]) } =
      { jsonrpc := "2.0", id := MCPId.num 3, result := none,
        error := some { code := -32000,
                        message := "unexpected end of JSON input", data := none } } :=
  ⟨rfl, rfl,
   toolsCall_execution_failure okBackend
     { method := "tools/call", id := MCPId.num 3,
       params := some (Json.obj [("name", Json.str "read_sheet")]) }
     { name := "read_sheet", arguments := none } "unexpected end of JSON input"
     rfl rfl rfl⟩

/-- Folding the params members of an object none of which sets a
non-empty name (each member either does not match the `name` tag or
carries the empty string) always succeeds and leaves the name empty. -/
theorem toolCallFold_no_name (fs : List (String × Json)) :
    ∀ acc : ToolCallParams, acc.name = "" →
      (∀ kv ∈ fs, keyIs kv.1 "name" = false ∨ kv.2 = Json.str "") →
      ∃ p, fs.foldlM toolCallStep acc = .ok p ∧ p.name = "" := by
  induction fs with
  | nil => exact fun acc hacc _ => ⟨acc, rfl, hacc⟩
  | cons kv rest ih =>
    obtain ⟨k, v⟩ := kv
    intro acc hacc h
    have hrest : ∀ x ∈ rest, keyIs x.1 "name" = false ∨ x.2 = Json.str "" :=
      fun x hx => h x (List.mem_cons_of_mem _ hx)
    show ∃ p, (toolCallStep acc (k, v) >>= fun s => rest.foldlM toolCallStep s) = .ok p ∧
      p.name = ""
    by_cases hk : keyIs k "name"
    · rcases h (k, v) (List.mem_cons_self _ _) with hne | hval
      · rw [hk] at hne; exact absurd hne (by simp)
      · subst hval
        have hstep : toolCallStep acc (k, Json.str "") = .ok { acc with name := "" } := by
          simp [toolCallStep, hk, setStrField]
        rw [hstep]
        exact ih { acc with name := "" } rfl hrest
    · by_cases ha : keyIs k "arguments"
      · have hstep : toolCallStep acc (k, v) = .ok { acc with arguments := some v } := by
          simp [toolCallStep, hk, ha]
        rw [hstep]
        exact ih { acc with arguments := some v } hacc hrest
      · have hstep : toolCallStep acc (k, v) = .ok acc := by
          simp [toolCallStep, hk, ha]
        rw [hstep]
        exact ih acc hacc hrest

/-- C10: every `tools/call` request whose params is a well-formed JSON
object that omits the name member (or carries an empty name) is
classified as tool-not-found: the response error code is -32601 with
message exactly "Tool not found: " (the empty name appended), never the
invalid-params code -32602. -/
theorem toolsCall_missing_name (b : Backend) (req : MCPRequest) (fs : List (String × Json))
    (hm : req.method = "tools/call")
    (hp : req.params = some (Json.obj fs))
    (h : ∀ kv ∈ fs, keyIs kv.1 "name" = false ∨ kv.2 = Json.str "") :
    handleRequest b req =
      { jsonrpc := "2.0", id := req.id,
        error := some { code := -32601, message := "Tool not found: " } } := by
  obtain ⟨p, hfold, hname⟩ := toolCallFold_no_name fs {} rfl h
  have hd : decodeToolCallParams req.params = .ok p := by
    rw [hp]; exact hfold
  rw [handleRequest_toolsCall b req hm, handleToolsCall_decode_ok b req p hd,
      runTool_eq_none b p.arguments (by rw [hname]; decide), hname]
  rfl

/-- Witness for C10: a params object carrying only an `arguments` member
(no name at all) yields the tool-not-found response with the bare
message, not invalid params. -/
theorem toolsCall_missing_name_witness :
    (∀ kv ∈ [("arguments", Json.obj [("spreadsheet_id", Json.str "abc")])],
      keyIs (kv : String × Json).1 "name" = false ∨ kv.2 = Json.str "") ∧
    handleRequest okBackend
      { method := "tools/call", id := MCPId.num 10,
        params := some (Json.obj [("arguments", Json.obj [("spreadsheet_id", Json.str "abc")])]) } =
      { jsonrpc := "2.0", id := MCPId.num 10,
        error := some { code := -32601, message := "Tool not found: " } } := by
  have h : ∀ kv ∈ [("arguments", Json.obj [("spreadsheet_id", Json.str "abc")])],
      keyIs (kv : String × Json).1 "name" = false ∨ kv.2 = Json.str "" := by
    intro kv hkv
    rw [List.mem_singleton] at hkv
    subst hkv
    exact Or.inl (by decide)
  exact ⟨h,
    toolsCall_missing_name okBackend
      { method := "tools/call", id := MCPId.num 10,
        params := some (Json.obj [("arguments", Json.obj [("spreadsheet_id", Json.str "abc")])]) }
      [("arguments", Json.obj [("spreadsheet_id", Json.str "abc")])] rfl rfl h⟩

/-- C6: encoding a response envelope to JSON and decoding it back yields
an envelope whose id has the same type and value as the original — an
integer id stays an integer, a string id stays a string, and a null id
stays null (the nil id is omitted on the wire and decodes back to
nil). -/
theorem encodeDecodeResponse_id (r : MCPResponse) :
    ∃ rt, decodeResponse (encodeResponse r) = .ok rt ∧ rt.id = r.id := by
  obtain ⟨jr, id, res, err⟩ := r
  cases id <;> cases res <;>
    rcases err with - | ⟨code, msg, data⟩ <;>
    first
      | exact ⟨_, rfl, rfl⟩
      | (cases data <;> exact ⟨_, rfl, rfl⟩)

/-- On every branch of the handshake the action trace is the same: bind
the listener, emit the authorization URL carrying the constant state
parameter, shut the listener down. -/
theorem getTokenFromWeb_trace (c : OAuth.Config)
    (exchange : String → Except String OAuth.Token) (ev : OAuth.FlowEvent) :
    (OAuth.getTokenFromWeb c exchange ev).2 =
      [OAuth.FlowAction.bindListener,
       OAuth.FlowAction.emitAuthURL (OAuth.authCodeURL c OAuth.oauthStateParam),
       OAuth.FlowAction.shutdown] := by
  cases ev with
  | callbackCode code =>
    cases h : exchange code with
    | error m => simp [OAuth.getTokenFromWeb, h]
    | ok t => simp [OAuth.getTokenFromWeb, h]
  | callbackNoCode => rfl
  | listenFailed m => rfl
  | ctxCancelled => rfl

/-- C7 is false on the code: the state token `getTokenFromWeb` embeds in
the authorization URL is the literal "state-token" for every session.
Two independent handshake sessions — here with two different client
configurations — produce traces whose emitted URLs both end in
"&state=state-token", so their embedded state tokens are equal, not
distinct. -/
theorem oauth_state_token_not_distinct :
    (OAuth.getTokenFromWeb
        { clientID := "client-a", clientSecret := "secret-a",
          redirectURI := "http://localhost:8080/oauth/callback", tokenFile := "a/token.json" }
        (fun _ => .error "offline") OAuth.FlowEvent.callbackNoCode).2 =
      [OAuth.FlowAction.bindListener,
       OAuth.FlowAction.emitAuthURL (OAuth.authCodeURL
         { clientID := "client-a", clientSecret := "secret-a",
           redirectURI := "http://localhost:8080/oauth/callback", tokenFile := "a/token.json" }
         "state-token"),
       OAuth.FlowAction.shutdown] ∧
    (OAuth.getTokenFromWeb
        { clientID := "client-b", clientSecret := "secret-b",
          redirectURI := "http://localhost:9090/oauth/callback", tokenFile := "b/token.json" }
        (fun _ => .error "offline") OAuth.FlowEvent.callbackNoCode).2 =
      [OAuth.FlowAction.bindListener,
       OAuth.FlowAction.emitAuthURL (OAuth.authCodeURL
         { clientID := "client-b", clientSecret := "secret-b",
           redirectURI := "http://localhost:9090/oauth/callback", tokenFile := "b/token.json" }
         "state-token"),
       OAuth.FlowAction.shutdown] ∧
    List.IsSuffix "&state=state-token".data
      (OAuth.authCodeURL
        { clientID := "client-a", clientSecret := "secret-a",
          redirectURI := "http://localhost:8080/oauth/callback", tokenFile := "a/token.json" }
        "state-token").data ∧
    List.IsSuffix "&state=state-token".data
      (OAuth.authCodeURL
        { clientID := "client-b", clientSecret := "secret-b",
          redirectURI := "http://localhost:9090/oauth/callback", tokenFile := "b/token.json" }
        "state-token").data ∧
    OAuth.sessionStateToken
        { clientID := "client-a", clientSecret := "secret-a",
          redirectURI := "http://localhost:8080/oauth/callback", tokenFile := "a/token.json" } =
      OAuth.sessionStateToken
        { clientID := "client-b", clientSecret := "secret-b",
          redirectURI := "http://localhost:9090/oauth/callback", tokenFile := "b/token.json" } ∧
    ({ clientID := "client-a", clientSecret := "secret-a",
       redirectURI := "http://localhost:8080/oauth/callback",
       tokenFile := "a/token.json" } : OAuth.Config) ≠
      { clientID := "client-b", clientSecret := "secret-b",
        redirectURI := "http://localhost:9090/oauth/callback", tokenFile := "b/token.json" } :=
  ⟨rfl, rfl, by set_option maxRecDepth 16000 in decide,
   by set_option maxRecDepth 16000 in decide, rfl, by decide⟩

/-- C7 amended: every run of the browser authorization handshake emits
to the operator an authorization URL embedding the fixed state token
"state-token"; the token is not randomly generated, so independent
handshake sessions embed identical (not distinct) state tokens. -/
theorem oauth_state_token_constant (c : OAuth.Config)
    (exchange : String → Except String OAuth.Token) (ev : OAuth.FlowEvent) :
    OAuth.FlowAction.emitAuthURL (OAuth.authCodeURL c OAuth.oauthStateParam) ∈
      (OAuth.getTokenFromWeb c exchange ev).2 ∧
    OAuth.sessionStateToken c = "state-token" := by
  refine ⟨?_, rfl⟩
  rw [getTokenFromWeb_trace c exchange ev]
  exact List.mem_cons_of_mem _ (List.mem_cons_self _ _)

/-- C8: on every terminal path of the authorization handshake — callback
with a code followed by a successful or failed exchange, callback
without a code, listener startup failure, or context cancellation — the
last externally visible action before `getTokenFromWeb` returns is
shutting down the local callback listener; the listener never outlives
the session, including on the success path. -/
theorem oauth_listener_shutdown_last (c : OAuth.Config)
    (exchange : String → Except String OAuth.Token) (ev : OAuth.FlowEvent) :
    (OAuth.getTokenFromWeb c exchange ev).2.getLast? = some OAuth.FlowAction.shutdown ∧
    OAuth.FlowAction.shutdown ∈ (OAuth.getTokenFromWeb c exchange ev).2 := by
  rw [getTokenFromWeb_trace c exchange ev]
  exact ⟨rfl, by simp⟩

/-- C9: whenever loading the stored token record succeeds, `GetClient`
returns the client built from that record without invoking the browser
handshake at all: its action trace is empty — no authorization URL is
emitted and no local callback listener is bound. -/
theorem GetClient_cached_token_no_handshake (c : OAuth.Config) (t : OAuth.Token)
    (exchange : String → Except String OAuth.Token) (ev : OAuth.FlowEvent) :
    OAuth.GetClient c (.ok t) exchange ev = (.ok t, []) ∧
    OAuth.FlowAction.bindListener ∉ (OAuth.GetClient c (.ok t) exchange ev).2 ∧
    ∀ url, OAuth.FlowAction.emitAuthURL url ∉ (OAuth.GetClient c (.ok t) exchange ev).2 :=
  ⟨rfl, by simp [OAuth.GetClient], fun url => by simp [OAuth.GetClient]⟩
